import Mathlib

/-!
Shallow embedding of the transaction lifecycle controller found in
`src/app/src/contracts/typechain/factories/VelodromePool__factory.ts`
(the `useTransaction` hook and its helpers: `extractError`,
`formatErrorReason`, `handleError`, `getRawTxGasLimit`,
`getContractTxGasLimit`, the receipt polling loop, and the
`TX_ERROR_PATTERNS` table).

Modelling conventions:
* `BigNumber` gas quantities are natural numbers; `BigNumber.div`
  truncates, which on naturals is `Nat` division.
* Asynchronous calls that may reject (`provider.estimateGas`,
  `contract.estimateGas[method]`, `signer.sendTransaction`,
  `contract[method](...)`, `provider.getTransactionReceipt`,
  `onComplete`) are modelled as `Except RawError _` values supplied by
  the environment.
* JavaScript truthiness of the values the source branches on is
  modelled explicitly (`strTruthy`, `codeTruthy`, `errDataTruthy`).
* Side effects on the toast, the reporting backend and the caller's
  handlers are recorded as an ordered trace of `Event`s.
-/

/-- JavaScript truthiness of a string value (`""` is falsy). -/
def strTruthy (s : String) : Bool := s != ""

/-- Boolean prefix test on character lists. -/
def isPrefixB : List Char → List Char → Bool
  | [], _ => true
  | _ :: _, [] => false
  | a :: as, b :: bs => a == b && isPrefixB as bs

/-- Boolean infix (contiguous-substring) test on character lists. -/
def isInfixB (pat : List Char) : List Char → Bool
  | [] => isPrefixB pat []
  | c :: rest => isPrefixB pat (c :: rest) || isInfixB pat rest

/-- `s.toLowerCase().includes(pat.toLowerCase())` from the source
(lower-casing character by character, which agrees with
`String.toLowerCase` on the ASCII strings the module uses). -/
def includesCI (s pat : String) : Bool :=
  isInfixB (pat.data.map Char.toLower) (s.data.map Char.toLower)

/-- An apostrophe character, used inside some source message strings. -/
def apos : String := String.singleton (Char.ofNat 39)

/-- An error `code` is a number or a string in the source (`number | string`). -/
inductive ErrCode where
  | num (n : ℤ)
  | str (s : String)
deriving DecidableEq, Repr

/-- JavaScript truthiness of a `code` value (`0` and `""` are falsy). -/
def codeTruthy : ErrCode → Bool
  | .num n => n != 0
  | .str s => s != ""

/-- The `data` payload attached to an error: either a string blob, an
object without a `.data` field, or an object whose `.data` field holds a
further payload. -/
inductive ErrData where
  | str (s : String)
  | objNone
  | obj (inner : ErrData)
deriving DecidableEq, Repr

/-- JavaScript truthiness of a `data` value (objects are truthy, `""` is falsy). -/
def errDataTruthy : ErrData → Bool
  | .str s => s != ""
  | .objNone => true
  | .obj _ => true

/-- `error?.data?.data ?? error?.data` from `extractError`: a string or a
`.data`-less object has no `.data` field, so the whole value is kept. -/
def extractData : Option ErrData → Option ErrData
  | none => none
  | some (.obj inner) => some inner
  | some d => some d

/-- The own fields of one error envelope level. -/
structure ErrFields where
  code : Option ErrCode
  message : Option String
  data : Option ErrData
deriving DecidableEq, Repr

/-- A raw error value: its own fields, plus up to arbitrarily many nested
`.error` envelopes (the source only ever looks two levels deep). -/
inductive RawError where
  | leaf (fields : ErrFields)
  | wrap (fields : ErrFields) (inner : RawError)
deriving DecidableEq, Repr

/-- The own fields of a raw error value. -/
def RawError.fields : RawError → ErrFields
  | .leaf f => f
  | .wrap f _ => f

/-- `rawError?.error?.error ?? rawError?.error ?? rawError` from
`extractError`: prefer the doubly nested envelope, then the singly nested
one, then the value itself; first non-null wins. -/
def unwrapError : RawError → RawError
  | .leaf f => .leaf f
  | .wrap _ (.leaf g) => .leaf g
  | .wrap _ (.wrap _ e2) => e2

/-- `TransactionErrorReason` from the source. -/
inductive TransactionErrorReason where
  | NotEnoughFunds
  | UserDenied
  | NetworkChanged
  | RpcError
  | TradeSlippage
deriving DecidableEq, Repr

/-- `TransactionErrorStage` from the source. -/
inductive TransactionErrorStage where
  | GasEstimate
  | Wallet
  | Reverted
deriving DecidableEq, Repr

/-- One entry of `TX_ERROR_PATTERNS`: `{ message?, code?, name? }`.
Constructor field order: message, code, name. -/
structure ErrPattern where
  message : Option String
  code : Option ErrCode
  name : Option String
deriving DecidableEq, Repr

/-- `TX_ERROR_PATTERNS` from the source, as an ordered association list.
String-keyed object literals iterate in insertion order under
`Object.entries`, so the list order below is the source's declaration
order: TradeSlippage, UserDenied, NotEnoughFunds, NetworkChanged,
RpcError. -/
def TX_ERROR_PATTERNS : List (TransactionErrorReason × List ErrPattern) :=
  [ (.TradeSlippage, [⟨none, none, some "TotalCostOutsideOfSpecifiedBounds"⟩]),
    (.UserDenied,
      [ ⟨some "User denied transaction signature", none, none⟩,
        ⟨some "User rejected transaction", none, none⟩,
        ⟨some ("Cannot set properties of undefined (setting " ++ apos ++
          "loadingDefaults" ++ apos ++ ")"), none, none⟩,
        ⟨none, some (.str "ACTION_REJECTED"), none⟩,
        ⟨none, some (.num 4001), none⟩ ]),
    (.NotEnoughFunds,
      [ ⟨some "Not enough funds for gas", none, none⟩,
        ⟨some "Failed to execute call with revert code InsufficientGasFunds", none, none⟩ ]),
    (.NetworkChanged, [⟨some "Underlying network changed", none, none⟩]),
    (.RpcError,
      [ ⟨none, some (.num (-32005)), none⟩,
        ⟨some "Non-200 status code", none, none⟩,
        ⟨some "Request limit exceeded", none, none⟩,
        ⟨some "Internal json-rpc error", none, none⟩,
        ⟨some "Response has no error or result", none, none⟩,
        ⟨some ("We can" ++ apos ++ "t execute this request"), none, none⟩,
        ⟨some ("Couldn" ++ apos ++ "t connect to the network"), none, none⟩ ]) ]

/-- One pattern match step of `extractError`:
`matchCode || matchMessage || matchName`, with the source's truthiness
guards (`pattern.code && errorCode === pattern.code`, etc.). -/
def patternMatches (errorCode : Option ErrCode) (errorMessage : Option String)
    (errorDescription : Option String) (p : ErrPattern) : Bool :=
  let matchCode :=
    match p.code, errorCode with
    | some pc, some c => codeTruthy pc && c == pc
    | _, _ => false
  let matchMessage :=
    match p.message, errorMessage with
    | some pm, some m => strTruthy pm && strTruthy m && includesCI m pm
    | _, _ => false
  let matchName :=
    match p.name, errorDescription with
    | some pn, some nm => strTruthy pn && includesCI nm pn
    | _, _ => false
  matchCode || matchMessage || matchName

/-- The `for (const [reason, patterns] of Object.entries(TX_ERROR_PATTERNS))`
walk with early return: the first table entry one of whose patterns
matches wins. -/
def findReason (errorCode : Option ErrCode) (errorMessage : Option String)
    (errorDescription : Option String) :
    List (TransactionErrorReason × List ErrPattern) → Option TransactionErrorReason
  | [] => none
  | (reason, patterns) :: rest =>
    if patterns.any (patternMatches errorCode errorMessage errorDescription)
    then some reason
    else findReason errorCode errorMessage errorDescription rest

/-- `TransactionError` from the source (the `description` field keeps
only the decoded error name, the one part of `ErrorDescription` the
module reads). -/
structure TransactionError where
  code : Option ErrCode
  message : Option String
  data : Option ErrData
  description : Option String
  reason : Option TransactionErrorReason
deriving DecidableEq, Repr

/-- The `errorDescription` computation of `extractError`:
`if (errorData && options['contract']) try { parseError(errorData) }`,
with a decoding throw swallowed (modelled by `parse` returning `none`). -/
def errorDescriptionOf (rawError : RawError) (hasContract : Bool)
    (parse : ErrData → Option String) : Option String :=
  match extractData (unwrapError rawError).fields.data, hasContract with
  | some d, true => if errDataTruthy d then parse d else none
  | _, _ => none

/-- `extractError` from the source. `hasContract` is the truthiness of
`options['contract']`; `parse` models `contract.interface.parseError`,
returning the decoded error name, with `none` standing for a decoding
throw (swallowed by the source's empty `catch`). -/
def extractError (rawError : RawError) (hasContract : Bool)
    (parse : ErrData → Option String) : TransactionError :=
  let error := unwrapError rawError
  let errorCode := error.fields.code
  let errorData := extractData error.fields.data
  let errorDescription := errorDescriptionOf rawError hasContract parse
  let errorMessage := error.fields.message
  { code := errorCode
    message := errorMessage
    data := errorData
    description := errorDescription
    reason := findReason errorCode errorMessage errorDescription TX_ERROR_PATTERNS }

example :
    (extractError (.leaf ⟨some (.num 4001), none, none⟩) false (fun _ => none)).reason
      = some .UserDenied := by decide

example :
    (extractError (.leaf ⟨none, some "USER Rejected Transaction in wallet", none⟩) false
      (fun _ => none)).reason = some .UserDenied := by decide

example :
    (extractError (.leaf ⟨none, some "Transaction reverted", none⟩) false
      (fun _ => none)).reason = none := by decide

/-- The slice of `getNetworkConfig(network)` the module reads:
`{minGas, maxGas, gasBuffer, displayName}`.  `gasBuffer` is a JS number,
modelled as a rational. -/
structure NetworkConfig where
  minGas : ℕ
  maxGas : ℕ
  gasBuffer : ℚ
  displayName : String

/-- `10000 * Math.max(1, config.gasBuffer)`, coerced to the integer
`BigNumber.mul` demands.  Configured buffers are multiples of `1/10000`,
for which the JS float product is an exact integer and the floor below
is the identity; on a non-integer product `BigNumber.from` would throw,
a case no claim exercises. -/
def gasScale (c : NetworkConfig) : ℕ :=
  (⌊(10000 : ℚ) * max 1 c.gasBuffer⌋).toNat

/-- `estimate.mul(10000 * Math.max(1, gasBuffer)).div(10000)`:
`BigNumber.div` truncates, which is `Nat` division here. -/
def bufferEstimate (c : NetworkConfig) (estimate : ℕ) : ℕ :=
  estimate * gasScale c / 10000

/-- The two trailing `if` statements shared by `getRawTxGasLimit` and
`getContractTxGasLimit`: `lt minGas → minGas`, `gt maxGas → maxGas`,
else unchanged. -/
def clampGas (c : NetworkConfig) (gasLimit : ℕ) : ℕ :=
  if gasLimit < c.minGas then c.minGas
  else if c.maxGas < gasLimit then c.maxGas
  else gasLimit

/-- `getRawTxGasLimit` from the source.  `txGasLimit` is `tx.gasLimit`;
`estimateGas` is the outcome `await provider.estimateGas(tx)` would
have, evaluated only when `tx.gasLimit` is nullish (`??`
short-circuits).  A rejection propagates out of the function. -/
def getRawTxGasLimit (c : NetworkConfig) (txGasLimit : Option ℕ)
    (estimateGas : Except RawError ℕ) : Except RawError ℕ :=
  match txGasLimit with
  | some g => .ok (clampGas c g)
  | none =>
    match estimateGas with
    | .error e => .error e
    | .ok estimate => .ok (clampGas c (bufferEstimate c estimate))

/-- `getContractTxGasLimit` from the source.  `optionsGasLimit` is
`options?.gasLimit`; `estimateGas` is the outcome
`await contract.estimateGas[method](...params)` would have, evaluated
only when no explicit limit is supplied. -/
def getContractTxGasLimit (c : NetworkConfig) (optionsGasLimit : Option ℕ)
    (estimateGas : Except RawError ℕ) : Except RawError ℕ :=
  match optionsGasLimit with
  | some g => .ok (clampGas c g)
  | none =>
    match estimateGas with
    | .error e => .error e
    | .ok estimate => .ok (clampGas c (bufferEstimate c estimate))

/-- `formatErrorReason` from the source: the user-facing copy per reason;
`null` exactly for `UserDenied`. -/
def formatErrorReason (errorReason : TransactionErrorReason)
    (network : NetworkConfig) : Option String :=
  match errorReason with
  | .TradeSlippage => some "The quoted option price is now out of bounds, try again"
  | .NetworkChanged => some "Your network unexpectedly changed, try again"
  | .RpcError => some "An RPC error occurred, try again"
  | .NotEnoughFunds =>
      some ("Your account on " ++ network.displayName ++ " doesn" ++ apos ++
        "t have enough gas")
  | .UserDenied => none

/-- A transaction receipt; only the fields the module reads. -/
structure Receipt where
  status : ℕ
  transactionHash : String
deriving DecidableEq, Repr

/-- Toast variants the module uses for `updateToast`. -/
inductive ToastVariant where
  | success
  | error
  | warning
deriving DecidableEq, Repr

/-- The observable side effects of one invocation, in order:
toast operations, backend reports, and calls of the caller's
`onError` / `onComplete` handlers.  `toastUpdatePending` is the
non-terminal `updatePendingToast` issued right after submission. -/
inductive Event where
  | toastCreatePending
  | toastUpdatePending
  | toastClose
  | toastUpdate (variant : ToastVariant)
  | reportError (error : TransactionError) (stage : TransactionErrorStage)
  | reportSuccess (receipt : Receipt)
  | handlerCall (error : TransactionError)
  | onCompleteCall (receipt : Receipt)
deriving DecidableEq, Repr

/-- The slice of `TransactionErrorOptions` that `handleError` branches
on: the stage, the truthiness of `options['contract']`, the decode
capability, the presence of the caller's `handler`, the network config,
and the receipt (if any). -/
structure HandleOpts where
  stage : TransactionErrorStage
  hasContract : Bool
  parse : ErrData → Option String
  handler : Bool
  network : NetworkConfig
  receipt : Option Receipt

/-- `handleError` from the source, as the ordered trace of its effects.
When the display message is `null` the toast is closed and the function
returns at once — in particular the backend report and the caller's
handler are both skipped; otherwise it reports, updates the toast to an
error display, and finally invokes the handler if supplied. -/
def handleError (rawError : RawError) (o : HandleOpts) : List Event :=
  let error := extractError rawError o.hasContract o.parse
  let errorReasonMessage : Option String :=
    match error.reason with
    | some r => formatErrorReason r o.network
    | none =>
      some (if o.stage == .Reverted then "Transaction reverted"
            else "Failed to send transaction")
  match errorReasonMessage with
  | none => [.toastClose]
  | some _ =>
      [.reportError error o.stage, .toastUpdate .error] ++
        (if o.handler then [.handlerCall error] else [])

/-- Outcome of the receipt polling promise.  `lookupFailed` records a
rejection of `provider.getTransactionReceipt` inside the
`setTimeout`-scheduled async callback: nothing catches it, `resolve` is
never called, and the surrounding promise never settles. -/
inductive PollResult where
  | found (receipt : Receipt) (attempt : ℕ)
  | timedOut (attempts : ℕ)
  | lookupFailed (attempt : ℕ)
deriving DecidableEq, Repr

/-- The body of the polling promise.  The source keeps a counter `n`
starting at `0` and retries while `n < 100` after incrementing; here
`budget = 100 - n` so the guard `n < 100` becomes `budget ≠ 0`, giving
structural recursion.  `lookup k` is the outcome of the `k`-th
`provider.getTransactionReceipt` call (attempts numbered from 1, so the
call in the attempt with counter `n` is `lookup (n+1)`). -/
def pollGo (lookup : ℕ → Except RawError (Option Receipt)) :
    ℕ → ℕ → PollResult
  | budget, n =>
    match lookup (n + 1) with
    | .error _ => .lookupFailed (n + 1)
    | .ok (some receipt) => .found receipt (n + 1)
    | .ok none =>
      match budget with
      | 0 => .timedOut (n + 1)
      | b + 1 => pollGo lookup b (n + 1)

/-- The polling promise of `useTransaction`: counter starts at `0`,
so the retry budget is `100`. -/
def pollReceipt (lookup : ℕ → Except RawError (Option Receipt)) : PollResult :=
  pollGo lookup 100 0

example : pollReceipt (fun _ => .ok none) = .timedOut 101 := by decide

example :
    pollReceipt (fun k => if k == 3 then .ok (some ⟨1, "0xah"⟩) else .ok none)
      = .found ⟨1, "0xah"⟩ 3 := by decide

/-- A `PopulatedTransaction`; only the field the controller writes. -/
structure PopulatedTx where
  gasLimit : Option ℕ
deriving DecidableEq, Repr

/-- The `Transaction` union from the source, discriminated exactly as the
controller does (`'method' in txInputs`, then `'tx' in txInputs`):
a bare `PopulatedTransaction`, a `{tx, contract?, metadata?}` record, or
a `{contract, method, params, options?, metadata?}` method call.
`hasContract` is the truthiness of the optional `contract` field;
`optionsGasLimit` is `options?.gasLimit`. -/
inductive TxRequest where
  | raw (tx : PopulatedTx)
  | rawWith (tx : PopulatedTx) (hasContract : Bool)
  | call (optionsGasLimit : Option ℕ)
deriving DecidableEq, Repr

/-- `TransactionOptions` presence flags: whether `onComplete` and
`onError` are supplied (their behaviour lives in `Env`). -/
structure TxOpts where
  onComplete : Bool
  onError : Bool
deriving DecidableEq, Repr

/-- The collaborators of one invocation: wallet presence, network
config, and the outcomes of each external async call.  `estimateGas`
covers both `provider.estimateGas` and `contract.estimateGas[method]`;
`sendTx` covers both `signer.sendTransaction` and the bound contract
call, returning the response hash; `lookupReceipt k` is the outcome of
the `k`-th `provider.getTransactionReceipt` call;
`onCompleteOutcome` is what `await onComplete(receipt)` does. -/
structure Env where
  hasSigner : Bool
  network : NetworkConfig
  estimateGas : Except RawError ℕ
  sendTx : Except RawError String
  lookupReceipt : ℕ → Except RawError (Option Receipt)
  parse : ErrData → Option String
  onCompleteOutcome : Except RawError Unit

/-- How one invocation of the returned async function ends for its
caller: the promise resolves with a receipt or `null`, rejects with an
uncaught exception, or never settles. -/
inductive Outcome where
  | returned (receipt : Option Receipt)
  | threw (e : RawError)
  | hung
deriving DecidableEq, Repr

/-- Result of one invocation: how the promise ends, the effect trace,
and the final state of the caller-owned `PopulatedTransaction` object
(for the two raw-transaction shapes; the controller mutates it in
place). -/
structure RunResult where
  outcome : Outcome
  events : List Event
  finalTx : Option PopulatedTx

/-- `new Error('Transaction reverted')` from the on-chain-failure branch. -/
def revertedError : RawError := .leaf ⟨none, some "Transaction reverted", none⟩

/-- The tail of `useTransaction` after a successful submission: the
pending-toast update, the polling promise, and the receipt handling.
`pre` is the trace so far, `hasContract` feeds the revert-stage
`handleError` options, `finalTx` the already-mutated transaction. -/
def afterSubmit (env : Env) (opts : TxOpts) (pre : List Event)
    (hasContract : Bool) (finalTx : Option PopulatedTx) : RunResult :=
  let pre := pre ++ [.toastUpdatePending]
  match pollReceipt env.lookupReceipt with
  | .lookupFailed _ =>
      -- the un-caught lookup rejection leaves the promise pending forever
      ⟨.hung, pre, finalTx⟩
  | .timedOut _ =>
      ⟨.returned none, pre ++ [.toastUpdate .warning], finalTx⟩
  | .found receipt _ =>
    if receipt.status == 0 then
      ⟨.returned none,
        pre ++ handleError revertedError
          ⟨.Reverted, hasContract, env.parse, opts.onError, env.network, some receipt⟩,
        finalTx⟩
    else
      match opts.onComplete, env.onCompleteOutcome with
      | true, .error e =>
          -- `await onComplete(receipt)` threw: nothing catches it
          ⟨.threw e, pre ++ [.onCompleteCall receipt], finalTx⟩
      | true, .ok _ =>
          ⟨.returned (some receipt),
            pre ++ [.onCompleteCall receipt, .reportSuccess receipt, .toastUpdate .success],
            finalTx⟩
      | false, _ =>
          ⟨.returned (some receipt),
            pre ++ [.reportSuccess receipt, .toastUpdate .success],
            finalTx⟩

/-- The async function returned by `useTransaction`, as a function of
its collaborators' behaviour.  Follows the source control flow: signer
guard, pending toast, shape discrimination, gas estimation, submission,
polling, and outcome handling.  The gas-estimation and submission
`try/catch` blocks funnel their errors through `handleError` and return
`null`. -/
def runTransaction (env : Env) (req : TxRequest) (opts : TxOpts) : RunResult :=
  let origTx : Option PopulatedTx :=
    match req with
    | .raw tx => some tx
    | .rawWith tx _ => some tx
    | .call _ => none
  if !env.hasSigner then
    -- `console.warn('No signer'); return null` — before any toast
    ⟨.returned none, [], origTx⟩
  else
    let pre : List Event := [.toastCreatePending]
    match req with
    | .call optionsGasLimit =>
      -- method-call path: `contract` is always present
      match getContractTxGasLimit env.network optionsGasLimit env.estimateGas with
      | .error rawError =>
          ⟨.returned none,
            pre ++ handleError rawError
              ⟨.GasEstimate, true, env.parse, opts.onError, env.network, none⟩,
            none⟩
      | .ok _ =>
        match env.sendTx with
        | .error rawError =>
            ⟨.returned none,
              pre ++ handleError rawError
                ⟨.Wallet, true, env.parse, opts.onError, env.network, none⟩,
              none⟩
        | .ok _ => afterSubmit env opts pre true none
    | .raw tx =>
      match getRawTxGasLimit env.network tx.gasLimit env.estimateGas with
      | .error rawError =>
          ⟨.returned none,
            pre ++ handleError rawError
              ⟨.GasEstimate, false, env.parse, opts.onError, env.network, none⟩,
            some tx⟩
      | .ok gasLimit =>
        -- `tx.gasLimit = await getRawTxGasLimit(...)` mutates the caller's object
        let tx2 : PopulatedTx := ⟨some gasLimit⟩
        match env.sendTx with
        | .error rawError =>
            ⟨.returned none,
              pre ++ handleError rawError
                ⟨.Wallet, false, env.parse, opts.onError, env.network, none⟩,
              some tx2⟩
        | .ok _ => afterSubmit env opts pre false (some tx2)
    | .rawWith tx hasContract =>
      match getRawTxGasLimit env.network tx.gasLimit env.estimateGas with
      | .error rawError =>
          ⟨.returned none,
            pre ++ handleError rawError
              ⟨.GasEstimate, hasContract, env.parse, opts.onError, env.network, none⟩,
            some tx⟩
      | .ok gasLimit =>
        let tx2 : PopulatedTx := ⟨some gasLimit⟩
        match env.sendTx with
        | .error rawError =>
            ⟨.returned none,
              pre ++ handleError rawError
                ⟨.Wallet, hasContract, env.parse, opts.onError, env.network, none⟩,
              some tx2⟩
        | .ok _ => afterSubmit env opts pre hasContract (some tx2)

/-- Number of toast creations in a trace. -/
def countToastCreate (es : List Event) : ℕ :=
  es.countP fun e => e == .toastCreatePending

/-- A terminal toast operation: a close, or an update to a terminal
variant (success, error, warning).  `toastUpdatePending` is not
terminal. -/
def isToastTerminal : Event → Bool
  | .toastClose => true
  | .toastUpdate _ => true
  | _ => false

/-- Number of terminal toast operations in a trace. -/
def countToastTerminal (es : List Event) : ℕ :=
  es.countP isToastTerminal

/-- Number of calls of the caller's `onError` handler in a trace. -/
def countHandlerCalls (es : List Event) : ℕ :=
  es.countP fun e => match e with | .handlerCall _ => true | _ => false

/-- Number of backend error reports in a trace. -/
def countReportErrors (es : List Event) : ℕ :=
  es.countP fun e => match e with | .reportError _ _ => true | _ => false

/-- Number of error-variant toast updates in a trace. -/
def countErrorToasts (es : List Event) : ℕ :=
  es.countP fun e => e == .toastUpdate .error

/-! Concrete fixtures used by witnesses and counterexamples. -/

/-- A concrete network configuration (Optimism-like bounds, buffer 1). -/
def cfgT : NetworkConfig := ⟨21000, 10000000, 1, "Optimism"⟩

/-- A generic raw error fixture. -/
def errW : RawError := .leaf ⟨none, some "boom", none⟩

deriving instance DecidableEq for Except

/-! Helper lemmas about the gas scale and the clamp shared by both
gas-limit functions. -/

theorem gasScale_eval (a b : ℕ) (s : String) (q : ℚ) (n : ℕ) (h1 : 1 ≤ q)
    (h2 : 10000 * q = (n : ℚ)) : gasScale ⟨a, b, q, s⟩ = n := by
  rw [gasScale]
  show (⌊(10000 : ℚ) * max 1 q⌋).toNat = n
  rw [max_eq_right h1, h2, Int.floor_natCast]
  simp

theorem gasScale_buffer_one (a b : ℕ) (s : String) :
    gasScale ⟨a, b, 1, s⟩ = 10000 :=
  gasScale_eval a b s 1 10000 le_rfl (by norm_num)

theorem bufferEstimate_buffer_one (a b : ℕ) (s : String) (est : ℕ) :
    bufferEstimate ⟨a, b, 1, s⟩ est = est := by
  rw [bufferEstimate, gasScale_buffer_one]
  omega

theorem clampGas_of_lt (c : NetworkConfig) (g : ℕ) (h : g < c.minGas) :
    clampGas c g = c.minGas := by
  simp [clampGas, h]

theorem clampGas_of_gt (c : NetworkConfig) (g : ℕ) (hc : c.minGas ≤ c.maxGas)
    (h : c.maxGas < g) : clampGas c g = c.maxGas := by
  have h1 : ¬ g < c.minGas := by omega
  simp [clampGas, h1, h]

theorem clampGas_of_mem (c : NetworkConfig) (g : ℕ) (h1 : c.minGas ≤ g)
    (h2 : g ≤ c.maxGas) : clampGas c g = g := by
  simp [clampGas, Nat.not_lt.mpr h1, Nat.not_lt.mpr h2]

/-- C1 (amended): with a caller-supplied explicit gas limit, both
gas-limit functions skip the estimation primitive — the result does not
depend on its outcome, even a rejection — but the returned value is the
explicit limit clamped to `[minGas, maxGas]`; it equals the explicit
limit unchanged only when the limit already lies within the bounds. -/
theorem claim_C1 (c : NetworkConfig) (g : ℕ) (e e2 : Except RawError ℕ) :
    getRawTxGasLimit c (some g) e = getRawTxGasLimit c (some g) e2
    ∧ getContractTxGasLimit c (some g) e = getContractTxGasLimit c (some g) e2
    ∧ getRawTxGasLimit c (some g) e = .ok (clampGas c g)
    ∧ getContractTxGasLimit c (some g) e = .ok (clampGas c g)
    ∧ (c.minGas ≤ g → g ≤ c.maxGas →
        getRawTxGasLimit c (some g) e = .ok g
        ∧ getContractTxGasLimit c (some g) e = .ok g) := by
  refine ⟨rfl, rfl, rfl, rfl, fun h1 h2 => ?_⟩
  constructor <;>
    simp [getRawTxGasLimit, getContractTxGasLimit, clampGas_of_mem c g h1 h2]

/-- C1 counterexample: an explicit limit of 5 on a network with
`minGas = 21000` is clamped up to 21000 (and an explicit limit of
20000000 is clamped down to `maxGas = 10000000`), so the explicit limit
does not bypass the clamping. -/
theorem claim_C1_counterexample :
    getRawTxGasLimit cfgT (some 5) (.ok 0) = .ok 21000
    ∧ (5 : ℕ) ≠ 21000
    ∧ getContractTxGasLimit cfgT (some 20000000) (.ok 0) = .ok 10000000
    ∧ (20000000 : ℕ) ≠ 10000000 := by decide

/-- C1 witness. -/
theorem claim_C1_witness :
    getRawTxGasLimit cfgT (some 50000) (.error errW) = .ok 50000
    ∧ getContractTxGasLimit cfgT (some 50000) (.error errW) = .ok 50000 :=
  (claim_C1 cfgT 50000 (.error errW) (.ok 0)).2.2.2.2 (by decide) (by decide)

/-- C7: without an explicit limit, both gas-limit functions return
exactly `minGas` when the buffered estimate falls below it, exactly
`maxGas` when the buffered estimate exceeds it, and the buffered
estimate unchanged otherwise (for a well-formed config with
`minGas ≤ maxGas`). -/
theorem claim_C7 (c : NetworkConfig) (est : ℕ) (hc : c.minGas ≤ c.maxGas) :
    (bufferEstimate c est < c.minGas →
      getRawTxGasLimit c none (.ok est) = .ok c.minGas
      ∧ getContractTxGasLimit c none (.ok est) = .ok c.minGas)
    ∧ (c.maxGas < bufferEstimate c est →
      getRawTxGasLimit c none (.ok est) = .ok c.maxGas
      ∧ getContractTxGasLimit c none (.ok est) = .ok c.maxGas)
    ∧ (c.minGas ≤ bufferEstimate c est → bufferEstimate c est ≤ c.maxGas →
      getRawTxGasLimit c none (.ok est) = .ok (bufferEstimate c est)
      ∧ getContractTxGasLimit c none (.ok est) = .ok (bufferEstimate c est)) := by
  refine ⟨fun h => ?_, fun h => ?_, fun h1 h2 => ?_⟩ <;> constructor <;>
    simp [getRawTxGasLimit, getContractTxGasLimit, clampGas_of_lt, clampGas_of_gt,
      clampGas_of_mem, *]

/-- C7 witness: with buffer 1 the buffered estimate equals the raw
estimate; 5 is clamped up, 20000000 clamped down, 50000 kept. -/
theorem claim_C7_witness :
    getRawTxGasLimit cfgT none (.ok 5) = .ok 21000
    ∧ getContractTxGasLimit cfgT none (.ok 20000000) = .ok 10000000
    ∧ getRawTxGasLimit cfgT none (.ok 50000) = .ok 50000 := by
  have hb5 : bufferEstimate cfgT 5 = 5 :=
    bufferEstimate_buffer_one 21000 10000000 "Optimism" 5
  have hb2 : bufferEstimate cfgT 20000000 = 20000000 :=
    bufferEstimate_buffer_one 21000 10000000 "Optimism" 20000000
  have hb3 : bufferEstimate cfgT 50000 = 50000 :=
    bufferEstimate_buffer_one 21000 10000000 "Optimism" 50000
  refine ⟨((claim_C7 cfgT 5 (by decide)).1 (by rw [hb5]; decide)).1,
    ((claim_C7 cfgT 20000000 (by decide)).2.1 (by rw [hb2]; decide)).2, ?_⟩
  have h := (((claim_C7 cfgT 50000 (by decide)).2.2 (by rw [hb3]; decide)
    (by rw [hb3]; decide)).1)
  rw [hb3] at h
  exact h

/-- C9: with `gasBuffer = 1.5` the scale factor is exactly `15000`, and
buffering an estimate of `100000` yields exactly `150000` through the
multiply-by-`buffer*10000`-divide-by-`10000` integer arithmetic, with no
rounding artifact; both estimator entry points return it (when within
bounds). -/
theorem claim_C9 (minGas maxGas : ℕ) (dn : String)
    (h1 : minGas ≤ 150000) (h2 : 150000 ≤ maxGas) :
    gasScale ⟨minGas, maxGas, 3/2, dn⟩ = 15000
    ∧ bufferEstimate ⟨minGas, maxGas, 3/2, dn⟩ 100000 = 150000
    ∧ getRawTxGasLimit ⟨minGas, maxGas, 3/2, dn⟩ none (.ok 100000) = .ok 150000
    ∧ getContractTxGasLimit ⟨minGas, maxGas, 3/2, dn⟩ none (.ok 100000)
        = .ok 150000 := by
  have hs : gasScale ⟨minGas, maxGas, 3/2, dn⟩ = 15000 :=
    gasScale_eval minGas maxGas dn (3/2) 15000 (by norm_num) (by norm_num)
  have hb : bufferEstimate ⟨minGas, maxGas, 3/2, dn⟩ 100000 = 150000 := by
    rw [bufferEstimate, hs]
  have hcl : clampGas ⟨minGas, maxGas, 3/2, dn⟩ 150000 = 150000 :=
    clampGas_of_mem _ _ h1 h2
  refine ⟨hs, hb, ?_, ?_⟩ <;>
    simp [getRawTxGasLimit, getContractTxGasLimit, hb, hcl]

/-- C9 witness. -/
theorem claim_C9_witness :
    bufferEstimate ⟨21000, 10000000, 3/2, "Optimism"⟩ 100000 = 150000
    ∧ getContractTxGasLimit ⟨21000, 10000000, 3/2, "Optimism"⟩ none (.ok 100000)
        = .ok 150000 :=
  ⟨(claim_C9 21000 10000000 "Optimism" (by decide) (by decide)).2.1,
   (claim_C9 21000 10000000 "Optimism" (by decide) (by decide)).2.2.2⟩

/-! Helper lemmas about the polling loop. -/

theorem pollGo_found (lookup : ℕ → Except RawError (Option Receipt)) (r : Receipt) :
    ∀ (b n k : ℕ), n + 1 ≤ k → k ≤ n + 1 + b →
      (∀ j, n + 1 ≤ j → j < k → lookup j = .ok none) →
      lookup k = .ok (some r) → pollGo lookup b n = .found r k := by
  intro b
  induction b with
  | zero =>
    intro n k hk1 hk2 _ hfound
    have hk : k = n + 1 := by omega
    subst hk
    simp [pollGo, hfound]
  | succ b ih =>
    intro n k hk1 hk2 hnone hfound
    by_cases hk : k = n + 1
    · subst hk
      simp [pollGo, hfound]
    · have h1 : lookup (n + 1) = .ok none := hnone (n + 1) le_rfl (by omega)
      rw [pollGo, h1]
      exact ih (n + 1) k (by omega) (by omega)
        (fun j hj1 hj2 => hnone j (by omega) hj2) hfound

theorem pollGo_none (lookup : ℕ → Except RawError (Option Receipt))
    (h : ∀ j, lookup j = .ok none) :
    ∀ (b n : ℕ), pollGo lookup b n = .timedOut (n + 1 + b) := by
  intro b
  induction b with
  | zero => intro n; simp [pollGo, h]
  | succ b ih =>
    intro n
    rw [pollGo, h (n + 1)]
    have harith : n + 1 + (b + 1) = n + 1 + 1 + b := by omega
    rw [harith]
    exact ih (n + 1)

/-- C3 (amended): the receipt poller returns the receipt from the first
attempt that yields one; when no attempt ever yields a receipt it
resolves to the null sentinel — without throwing — after exactly 101
receipt lookups (the initial attempt plus the 100 retries allowed by the
`n < 100` guard). -/
theorem claim_C3 (lookup : ℕ → Except RawError (Option Receipt)) :
    (∀ (r : Receipt) (k : ℕ), 1 ≤ k → k ≤ 101 →
      (∀ j, 1 ≤ j → j < k → lookup j = .ok none) →
      lookup k = .ok (some r) → pollReceipt lookup = .found r k)
    ∧ ((∀ j, lookup j = .ok none) → pollReceipt lookup = .timedOut 101) := by
  constructor
  · intro r k hk1 hk2 hnone hfound
    exact pollGo_found lookup r 100 0 k hk1 (by omega) hnone hfound
  · intro h
    rw [pollReceipt, pollGo_none lookup h 100 0]

/-- C3 counterexample: with a provider that never yields a receipt, the
poller performs 101 lookups (the timeout sentinel carries the index of
the last attempt), not the 100 the claim states. -/
theorem claim_C3_counterexample :
    pollReceipt (fun _ => .ok none) = .timedOut 101
    ∧ (101 : ℕ) ≠ 100 := by decide

/-- C3 witness: a receipt appearing on attempt 3 is returned there, and
a never-appearing receipt times out after attempt 101. -/
theorem claim_C3_witness :
    pollReceipt (fun k => if k == 3 then .ok (some ⟨1, "0xh"⟩) else .ok none)
      = .found ⟨1, "0xh"⟩ 3
    ∧ pollReceipt (fun _ => .ok (none : Option Receipt)) = .timedOut 101 :=
  ⟨(claim_C3 (fun k => if k == 3 then .ok (some ⟨1, "0xh"⟩) else .ok none)).1
      ⟨1, "0xh"⟩ 3 (by decide) (by decide)
      (by intro j h1 h2; interval_cases j <;> rfl) (by rfl),
   (claim_C3 (fun _ => .ok (none : Option Receipt))).2 (fun _ => rfl)⟩

/-- C6: the pattern table is walked in the fixed order TradeSlippage,
UserDenied, NotEnoughFunds, NetworkChanged, RpcError, and the first
matching reason wins; in particular any error whose decoded name
matches the TradeSlippage rule while its code is `-32005` (the RpcError
code rule) is classified TradeSlippage. -/
theorem claim_C6 (raw : RawError) (parse : ErrData → Option String) (nm : String)
    (hdesc : errorDescriptionOf raw true parse = some nm)
    (hname : includesCI nm "TotalCostOutsideOfSpecifiedBounds" = true)
    (hcode : (unwrapError raw).fields.code = some (.num (-32005))) :
    TX_ERROR_PATTERNS.map Prod.fst =
      [.TradeSlippage, .UserDenied, .NotEnoughFunds, .NetworkChanged, .RpcError]
    ∧ (extractError raw true parse).reason = some .TradeSlippage := by
  refine ⟨rfl, ?_⟩
  have hreason : (extractError raw true parse).reason
      = findReason (unwrapError raw).fields.code (unwrapError raw).fields.message
          (errorDescriptionOf raw true parse) TX_ERROR_PATTERNS := rfl
  rw [hreason, hdesc, hcode]
  simp [findReason, TX_ERROR_PATTERNS, patternMatches, hname, strTruthy]

/-- C6 witness. -/
theorem claim_C6_witness :
    (extractError (.leaf ⟨some (.num (-32005)), some "execution reverted",
        some (.str "0xdeadbeef")⟩) true
      (fun _ => some "TotalCostOutsideOfSpecifiedBounds")).reason
      = some .TradeSlippage :=
  (claim_C6 (.leaf ⟨some (.num (-32005)), some "execution reverted",
      some (.str "0xdeadbeef")⟩)
    (fun _ => some "TotalCostOutsideOfSpecifiedBounds")
    "TotalCostOutsideOfSpecifiedBounds" (by rfl) (by decide) (by rfl)).2

/-- C8 (amended): an error whose innermost message (after the 0-2 level
unwrap) case-insensitively contains "user rejected transaction" is
classified UserDenied, provided the decoded error name — if one is
available — does not trigger the TradeSlippage rule, which is checked
first; in particular this always holds when no contract is supplied for
decoding. -/
theorem claim_C8 (raw : RawError) (hasContract : Bool)
    (parse : ErrData → Option String) (m : String)
    (hmsg : (unwrapError raw).fields.message = some m)
    (hincl : includesCI m "user rejected transaction" = true)
    (hnoslip : ∀ nm, errorDescriptionOf raw hasContract parse = some nm →
      includesCI nm "TotalCostOutsideOfSpecifiedBounds" = false) :
    (extractError raw hasContract parse).reason = some .UserDenied := by
  have hm : m ≠ "" := by
    rintro rfl
    exact absurd hincl (by decide)
  have hUR : includesCI m "User rejected transaction" = true := by
    have hlo : includesCI m "User rejected transaction"
        = includesCI m "user rejected transaction" := rfl
    rw [hlo, hincl]
  have hreason : (extractError raw hasContract parse).reason
      = findReason (unwrapError raw).fields.code (unwrapError raw).fields.message
          (errorDescriptionOf raw hasContract parse) TX_ERROR_PATTERNS := rfl
  rw [hreason, hmsg]
  rcases hdesc : errorDescriptionOf raw hasContract parse with _ | nm
  · simp [findReason, TX_ERROR_PATTERNS, patternMatches, hm, hUR, strTruthy]
  · have hns := hnoslip nm hdesc
    simp [findReason, TX_ERROR_PATTERNS, patternMatches, hm, hUR, hns, strTruthy]

/-- C8 counterexample: a raw error whose message is exactly
"User rejected transaction" but whose decoded custom-error name matches
the TradeSlippage rule is classified TradeSlippage, not UserDenied, so
the unqualified claim fails. -/
theorem claim_C8_counterexample :
    includesCI "User rejected transaction" "user rejected transaction" = true
    ∧ (extractError (.leaf ⟨none, some "User rejected transaction", some (.str "0xbad")⟩)
        true (fun _ => some "TotalCostOutsideOfSpecifiedBounds")).reason
        = some .TradeSlippage
    ∧ some TransactionErrorReason.TradeSlippage
        ≠ some TransactionErrorReason.UserDenied := by decide

/-- C8 witness: a doubly wrapped user-rejection with no contract
available is classified UserDenied. -/
theorem claim_C8_witness :
    (extractError (.wrap ⟨some (.num 1), none, none⟩ (.wrap ⟨none, none, none⟩
        (.leaf ⟨none, some "User rejected transaction.", none⟩))) false
      (fun _ => none)).reason = some .UserDenied :=
  claim_C8 (.wrap ⟨some (.num 1), none, none⟩ (.wrap ⟨none, none, none⟩
      (.leaf ⟨none, some "User rejected transaction.", none⟩))) false
    (fun _ => none) "User rejected transaction." (by rfl) (by decide)
    (fun _ h => Option.noConfusion h)

/-! Helper lemmas about `handleError` and the post-submission tail. -/

theorem handleError_userDenied (rawError : RawError) (o : HandleOpts)
    (h : (extractError rawError o.hasContract o.parse).reason = some .UserDenied) :
    handleError rawError o = [.toastClose] := by
  simp [handleError, h, formatErrorReason]

theorem handleError_terminal (rawError : RawError) (o : HandleOpts) :
    countToastTerminal (handleError rawError o) = 1
    ∧ countToastCreate (handleError rawError o) = 0 := by
  rcases hr : (extractError rawError o.hasContract o.parse).reason with _ | r
  · cases ho : o.handler <;>
      simp [handleError, hr, ho, countToastTerminal, countToastCreate,
        isToastTerminal, List.countP_cons]
  · cases r <;> cases ho : o.handler <;>
      simp [handleError, hr, ho, formatErrorReason, countToastTerminal,
        countToastCreate, isToastTerminal, List.countP_cons]

theorem afterSubmit_finalTx (env : Env) (opts : TxOpts) (pre : List Event)
    (hc : Bool) (ft : Option PopulatedTx) :
    (afterSubmit env opts pre hc ft).finalTx = ft := by
  rcases h : pollReceipt env.lookupReceipt with ⟨r, k⟩ | k | k
  · by_cases hst : r.status == 0
    · simp [afterSubmit, h, hst]
    · cases hoc : opts.onComplete <;> rcases hco : env.onCompleteOutcome with e | u <;>
        simp [afterSubmit, h, hst, hoc, hco]
  · simp [afterSubmit, h]
  · simp [afterSubmit, h]

theorem afterSubmit_threw (env : Env) (opts : TxOpts) (pre : List Event)
    (hc : Bool) (ft : Option PopulatedTx) (e : RawError)
    (h : (afterSubmit env opts pre hc ft).outcome = .threw e) :
    opts.onComplete = true ∧ env.onCompleteOutcome = .error e := by
  rcases hp : pollReceipt env.lookupReceipt with ⟨r, k⟩ | k | k
  · by_cases hst : r.status == 0
    · simp [afterSubmit, hp, hst] at h
    · cases hoc : opts.onComplete <;> rcases hco : env.onCompleteOutcome with e2 | u
      · simp [afterSubmit, hp, hst, hoc, hco] at h
      · simp [afterSubmit, hp, hst, hoc, hco] at h
      · simp [afterSubmit, hp, hst, hoc, hco] at h
        subst h
        exact ⟨rfl, rfl⟩
      · simp [afterSubmit, hp, hst, hoc, hco] at h
  · simp [afterSubmit, hp] at h
  · simp [afterSubmit, hp] at h

theorem afterSubmit_counts (env : Env) (opts : TxOpts) (pre : List Event)
    (hc : Bool) (ft : Option PopulatedTx) (r : Option Receipt)
    (h : (afterSubmit env opts pre hc ft).outcome = .returned r) :
    countToastTerminal (afterSubmit env opts pre hc ft).events
      = countToastTerminal pre + 1
    ∧ countToastCreate (afterSubmit env opts pre hc ft).events
      = countToastCreate pre := by
  rcases hp : pollReceipt env.lookupReceipt with ⟨rc, k⟩ | k | k
  · by_cases hst : rc.status == 0
    · have hh := handleError_terminal revertedError
        ⟨.Reverted, hc, env.parse, opts.onError, env.network, some rc⟩
      simp [afterSubmit, hp, hst, countToastTerminal, countToastCreate,
        List.countP_append, List.countP_cons, isToastTerminal] at hh ⊢
      exact hh
    · cases hoc : opts.onComplete <;> rcases hco : env.onCompleteOutcome with e2 | u
      · simp [afterSubmit, hp, hst, hoc, hco, countToastTerminal, countToastCreate,
          List.countP_append, List.countP_cons, isToastTerminal]
      · simp [afterSubmit, hp, hst, hoc, hco, countToastTerminal, countToastCreate,
          List.countP_append, List.countP_cons, isToastTerminal]
      · simp [afterSubmit, hp, hst, hoc, hco] at h
      · simp [afterSubmit, hp, hst, hoc, hco, countToastTerminal, countToastCreate,
          List.countP_append, List.countP_cons, isToastTerminal]
  · constructor <;>
      simp [afterSubmit, hp, countToastTerminal, countToastCreate,
        List.countP_append, List.countP_cons, isToastTerminal]
  · simp [afterSubmit, hp] at h

/-- Fixture: a gas-estimation rejection carrying the wallet's denial
message. -/
def deniedErr : RawError := .leaf ⟨none, some "User denied transaction signature", none⟩

/-- Fixture: gas estimation rejects with the denial message. -/
def envC2 : Env :=
  ⟨true, cfgT, .error deniedErr, .ok "0xhash", fun _ => .ok none, fun _ => none, .ok ()⟩

/-- Fixture: every receipt lookup rejects. -/
def envC4 : Env :=
  ⟨true, cfgT, .ok 100000, .ok "0xhash", fun _ => .error errW, fun _ => none, .ok ()⟩

/-- Fixture: submission succeeds, the first lookup yields a successful
receipt, and the caller's completion callback throws. -/
def envThrow : Env :=
  ⟨true, cfgT, .ok 100000, .ok "0xhash", fun _ => .ok (some ⟨1, "0xhash"⟩),
    fun _ => none, .error errW⟩

/-- Fixture: submission rejects. -/
def envSendFail : Env :=
  ⟨true, cfgT, .ok 100000, .error errW, fun _ => .ok none, fun _ => none, .ok ()⟩

/-- Fixture: the whole happy path succeeds on the first poll. -/
def envOk : Env :=
  ⟨true, cfgT, .ok 100000, .ok "0xhash", fun _ => .ok (some ⟨1, "0xhash"⟩),
    fun _ => none, .ok ()⟩

/-- C2 (amended): when classification yields reason UserDenied (so the
display message is null), the failure-reporting procedure closes the
notification — not styling it as an error — sends no error report to
the backend, and does NOT invoke the caller's error handler; a
gas-estimation failure classified this way makes the entry point return
null with only the toast creation and the close in its trace. -/
theorem claim_C2 (rawError : RawError) (o : HandleOpts) (env : Env) (opts : TxOpts)
    (h1 : (extractError rawError o.hasContract o.parse).reason = some .UserDenied)
    (hs : env.hasSigner = true)
    (hest : env.estimateGas = .error rawError)
    (h2 : (extractError rawError true env.parse).reason = some .UserDenied) :
    handleError rawError o = [.toastClose]
    ∧ (runTransaction env (.call none) opts).outcome = .returned none
    ∧ (runTransaction env (.call none) opts).events
        = [.toastCreatePending, .toastClose]
    ∧ countReportErrors (runTransaction env (.call none) opts).events = 0
    ∧ countHandlerCalls (runTransaction env (.call none) opts).events = 0 := by
  have hh2 := handleError_userDenied rawError
    ⟨.GasEstimate, true, env.parse, opts.onError, env.network, none⟩ h2
  have hrun : runTransaction env (.call none) opts
      = ⟨.returned none, [.toastCreatePending, .toastClose], none⟩ := by
    simp [runTransaction, hs, getContractTxGasLimit, hest, hh2]
  refine ⟨handleError_userDenied rawError o h1, ?_, ?_, ?_, ?_⟩ <;>
    rw [hrun] <;> rfl

/-- C2 counterexample: with an error handler supplied and a
gas-estimation failure whose message is "User denied transaction
signature", the entry point returns null and the notification is
closed, but the handler is invoked zero times, not once. -/
theorem claim_C2_counterexample :
    (runTransaction envC2 (.call none) ⟨false, true⟩).events
      = [.toastCreatePending, .toastClose]
    ∧ (runTransaction envC2 (.call none) ⟨false, true⟩).outcome = .returned none
    ∧ countHandlerCalls (runTransaction envC2 (.call none) ⟨false, true⟩).events = 0
    ∧ (0 : ℕ) ≠ 1 := by decide

/-- C2 witness. -/
theorem claim_C2_witness :
    handleError deniedErr ⟨.Wallet, false, fun _ => none, true, cfgT, none⟩
      = [.toastClose]
    ∧ (runTransaction envC2 (.call none) ⟨false, true⟩).outcome
        = .returned none := by
  have h := claim_C2 deniedErr ⟨.Wallet, false, fun _ => none, true, cfgT, none⟩
    envC2 ⟨false, true⟩ (by decide) (by rfl) (by rfl) (by decide)
  exact ⟨h.1, h.2.1⟩

/-- C10: on both raw-transaction request shapes, once the gas limit is
computed the caller's transaction object has its `gasLimit` field
overwritten with it, and this mutation persists in every outcome — in
particular when submission fails and the entry point returns null. -/
theorem claim_C10 (env : Env) (opts : TxOpts) (tx : PopulatedTx) (hc : Bool) (g : ℕ)
    (hs : env.hasSigner = true)
    (hgas : getRawTxGasLimit env.network tx.gasLimit env.estimateGas = .ok g) :
    (runTransaction env (.raw tx) opts).finalTx = some ⟨some g⟩
    ∧ (runTransaction env (.rawWith tx hc) opts).finalTx = some ⟨some g⟩
    ∧ (∀ raw, env.sendTx = .error raw →
        (runTransaction env (.raw tx) opts).outcome = .returned none) := by
  refine ⟨?_, ?_, ?_⟩
  · rcases hsend : env.sendTx with raw | hsh
    · simp [runTransaction, hs, hgas, hsend]
    · simp [runTransaction, hs, hgas, hsend, afterSubmit_finalTx]
  · rcases hsend : env.sendTx with raw | hsh
    · simp [runTransaction, hs, hgas, hsend]
    · simp [runTransaction, hs, hgas, hsend, afterSubmit_finalTx]
  · intro raw hsend
    simp [runTransaction, hs, hgas, hsend]

/-- C10 witness: a raw transaction submitted without an explicit limit
starts with `gasLimit = none`; after a failed submission the entry
point returns null yet the caller's object now carries the computed
limit. -/
theorem claim_C10_witness :
    (runTransaction envSendFail (.raw ⟨none⟩) ⟨false, false⟩).finalTx
      = some ⟨some 100000⟩
    ∧ (runTransaction envSendFail (.raw ⟨none⟩) ⟨false, false⟩).outcome
        = .returned none := by
  have hgas : getRawTxGasLimit envSendFail.network (PopulatedTx.mk none).gasLimit
      envSendFail.estimateGas = .ok 100000 := by
    have hb : bufferEstimate cfgT 100000 = 100000 :=
      bufferEstimate_buffer_one 21000 10000000 "Optimism" 100000
    show getRawTxGasLimit cfgT none (.ok 100000) = .ok 100000
    simp [getRawTxGasLimit, hb]
    decide
  have h := claim_C10 envSendFail ⟨false, false⟩ ⟨none⟩ false 100000 (by rfl) hgas
  exact ⟨h.1, h.2.2 errW (by rfl)⟩

/-- Every signer-present invocation either fails before submission —
its trace is the created toast followed by `handleError`'s trace and it
returns null — or runs the post-submission tail on the created toast. -/
theorem runTransaction_shape (env : Env) (req : TxRequest) (opts : TxOpts)
    (hs : env.hasSigner = true) :
    (∃ raw o, (runTransaction env req opts).events
        = Event.toastCreatePending :: handleError raw o
      ∧ (runTransaction env req opts).outcome = .returned none)
    ∨ (∃ hc ft, runTransaction env req opts
        = afterSubmit env opts [.toastCreatePending] hc ft) := by
  rcases req with tx | ⟨tx, hc⟩ | og
  · rcases hg : getRawTxGasLimit env.network tx.gasLimit env.estimateGas with er | g
    · exact .inl ⟨er, ⟨.GasEstimate, false, env.parse, opts.onError, env.network, none⟩,
        by simp [runTransaction, hs, hg], by simp [runTransaction, hs, hg]⟩
    · rcases hsend : env.sendTx with er | hsh
      · exact .inl ⟨er, ⟨.Wallet, false, env.parse, opts.onError, env.network, none⟩,
          by simp [runTransaction, hs, hg, hsend], by simp [runTransaction, hs, hg, hsend]⟩
      · exact .inr ⟨false, some ⟨some g⟩, by simp [runTransaction, hs, hg, hsend]⟩
  · rcases hg : getRawTxGasLimit env.network tx.gasLimit env.estimateGas with er | g
    · exact .inl ⟨er, ⟨.GasEstimate, hc, env.parse, opts.onError, env.network, none⟩,
        by simp [runTransaction, hs, hg], by simp [runTransaction, hs, hg]⟩
    · rcases hsend : env.sendTx with er | hsh
      · exact .inl ⟨er, ⟨.Wallet, hc, env.parse, opts.onError, env.network, none⟩,
          by simp [runTransaction, hs, hg, hsend], by simp [runTransaction, hs, hg, hsend]⟩
      · exact .inr ⟨hc, some ⟨some g⟩, by simp [runTransaction, hs, hg, hsend]⟩
  · rcases hg : getContractTxGasLimit env.network og env.estimateGas with er | g
    · exact .inl ⟨er, ⟨.GasEstimate, true, env.parse, opts.onError, env.network, none⟩,
        by simp [runTransaction, hs, hg], by simp [runTransaction, hs, hg]⟩
    · rcases hsend : env.sendTx with er | hsh
      · exact .inl ⟨er, ⟨.Wallet, true, env.parse, opts.onError, env.network, none⟩,
          by simp [runTransaction, hs, hg, hsend], by simp [runTransaction, hs, hg, hsend]⟩
      · exact .inr ⟨true, none, by simp [runTransaction, hs, hg, hsend]⟩

theorem countToastCreate_cons_create (l : List Event) :
    countToastCreate (Event.toastCreatePending :: l) = countToastCreate l + 1 := by
  simp [countToastCreate, List.countP_cons]

theorem countToastTerminal_cons_create (l : List Event) :
    countToastTerminal (Event.toastCreatePending :: l) = countToastTerminal l := by
  simp [countToastTerminal, List.countP_cons, isToastTerminal]

/-- C5 (amended): in every signer-present invocation that settles with
a resolved promise (so the completion callback did not throw and no
receipt lookup rejected), exactly one toast is created and exactly one
terminal toast operation — a close or an update to a success, error or
warning display — is performed. -/
theorem claim_C5 (env : Env) (req : TxRequest) (opts : TxOpts) (r : Option Receipt)
    (hs : env.hasSigner = true)
    (hret : (runTransaction env req opts).outcome = .returned r) :
    countToastCreate (runTransaction env req opts).events = 1
    ∧ countToastTerminal (runTransaction env req opts).events = 1 := by
  rcases runTransaction_shape env req opts hs with ⟨raw, o, hev, _⟩ | ⟨hc, ft, heq⟩
  · have hh := handleError_terminal raw o
    rw [hev, countToastCreate_cons_create, countToastTerminal_cons_create,
      hh.1, hh.2]
    exact ⟨rfl, rfl⟩
  · rw [heq] at hret ⊢
    have hc2 := afterSubmit_counts env opts [.toastCreatePending] hc ft r hret
    rw [hc2.1, hc2.2]
    exact ⟨rfl, rfl⟩

/-- C5 counterexample: when the completion callback throws after a
successful receipt, the single created toast is never closed nor
updated to a terminal state — zero terminal operations, not one. -/
theorem claim_C5_counterexample :
    countToastCreate
      (runTransaction envThrow (.call (some 500000)) ⟨true, true⟩).events = 1
    ∧ countToastTerminal
        (runTransaction envThrow (.call (some 500000)) ⟨true, true⟩).events = 0
    ∧ (0 : ℕ) ≠ 1 := by decide

/-- C5 witness. -/
theorem claim_C5_witness :
    countToastCreate
      (runTransaction envOk (.call (some 500000)) ⟨false, false⟩).events = 1
    ∧ countToastTerminal
        (runTransaction envOk (.call (some 500000)) ⟨false, false⟩).events = 1 :=
  claim_C5 envOk (.call (some 500000)) ⟨false, false⟩ (some ⟨1, "0xhash"⟩)
    (by rfl) (by decide)

/-- C4 (amended): gas-estimation and submission failures are caught and
funneled through the classification-and-reporting procedure, and the
entry point resolves with null rather than throwing; the only failure
that propagates to the caller as a thrown error is one from the
caller-supplied completion callback; a receipt-lookup failure during
polling, however, is NOT caught and NOT classified — the un-handled
rejection leaves the invocation pending forever with no further
effects. -/
theorem claim_C4 (env : Env) (req : TxRequest) (opts : TxOpts)
    (rawError : RawError) (gval : ℕ) (hsh : String) (k : ℕ) :
    (∀ e, (runTransaction env req opts).outcome = .threw e →
      opts.onComplete = true ∧ env.onCompleteOutcome = .error e)
    ∧ (env.hasSigner = true → env.estimateGas = .error rawError →
        (runTransaction env (.call none) opts).outcome = .returned none
        ∧ (runTransaction env (.call none) opts).events
            = Event.toastCreatePending :: handleError rawError
                ⟨.GasEstimate, true, env.parse, opts.onError, env.network, none⟩)
    ∧ (env.hasSigner = true → env.estimateGas = .ok gval →
        env.sendTx = .error rawError →
        (runTransaction env (.call none) opts).outcome = .returned none
        ∧ (runTransaction env (.call none) opts).events
            = Event.toastCreatePending :: handleError rawError
                ⟨.Wallet, true, env.parse, opts.onError, env.network, none⟩)
    ∧ (env.hasSigner = true → env.estimateGas = .ok gval → env.sendTx = .ok hsh →
        pollReceipt env.lookupReceipt = .lookupFailed k →
        (runTransaction env (.call none) opts).outcome = .hung
        ∧ (runTransaction env (.call none) opts).events
            = [.toastCreatePending, .toastUpdatePending]) := by
  refine ⟨?_, ?_, ?_, ?_⟩
  · intro e he
    rcases hsig : env.hasSigner with _ | _
    · simp [runTransaction, hsig] at he
    · rcases runTransaction_shape env req opts hsig with ⟨raw, o, _, ho⟩ | ⟨hc, ft, heq⟩
      · rw [ho] at he
        exact absurd he (by simp)
      · rw [heq] at he
        exact afterSubmit_threw env opts [.toastCreatePending] hc ft e he
  · intro hs hest
    have hrun : runTransaction env (.call none) opts
        = ⟨.returned none, Event.toastCreatePending :: handleError rawError
            ⟨.GasEstimate, true, env.parse, opts.onError, env.network, none⟩, none⟩ := by
      simp [runTransaction, hs, getContractTxGasLimit, hest]
    rw [hrun]
    exact ⟨rfl, rfl⟩
  · intro hs hest hsend
    have hrun : runTransaction env (.call none) opts
        = ⟨.returned none, Event.toastCreatePending :: handleError rawError
            ⟨.Wallet, true, env.parse, opts.onError, env.network, none⟩, none⟩ := by
      simp [runTransaction, hs, getContractTxGasLimit, hest, hsend]
    rw [hrun]
    exact ⟨rfl, rfl⟩
  · intro hs hest hsend hpoll
    have hrun : runTransaction env (.call none) opts
        = ⟨.hung, [.toastCreatePending, .toastUpdatePending], none⟩ := by
      simp [runTransaction, hs, getContractTxGasLimit, hest, hsend,
        afterSubmit, hpoll]
    rw [hrun]
    exact ⟨rfl, rfl⟩

/-- C4 counterexample: with a provider whose receipt lookup rejects on
the first poll attempt, the invocation hangs after the pending-toast
update: the failure is neither classified nor reported nor surfaced —
no error report, no handler call, no terminal toast operation — so
receipt-lookup failures are not "caught and funneled through
classification". -/
theorem claim_C4_counterexample :
    (runTransaction envC4 (.call (some 500000)) ⟨false, true⟩).outcome = .hung
    ∧ (runTransaction envC4 (.call (some 500000)) ⟨false, true⟩).events
        = [.toastCreatePending, .toastUpdatePending]
    ∧ countReportErrors
        (runTransaction envC4 (.call (some 500000)) ⟨false, true⟩).events = 0
    ∧ countHandlerCalls
        (runTransaction envC4 (.call (some 500000)) ⟨false, true⟩).events = 0
    ∧ countToastTerminal
        (runTransaction envC4 (.call (some 500000)) ⟨false, true⟩).events = 0 := by
  decide

/-- C4 witness. -/
theorem claim_C4_witness :
    ((TxOpts.mk true false).onComplete = true
        ∧ envThrow.onCompleteOutcome = .error errW)
    ∧ (runTransaction envC2 (.call none) ⟨false, true⟩).outcome = .returned none
    ∧ (runTransaction envSendFail (.call none) ⟨false, false⟩).outcome
        = .returned none
    ∧ (runTransaction envC4 (.call none) ⟨false, true⟩).outcome = .hung := by
  refine ⟨?_, ?_, ?_, ?_⟩
  · exact (claim_C4 envThrow (.call (some 500000)) ⟨true, false⟩ errW 0 "" 0).1
      errW (by decide)
  · exact ((claim_C4 envC2 (.call none) ⟨false, true⟩ deniedErr 0 "" 0).2.1
      (by rfl) (by rfl)).1
  · exact ((claim_C4 envSendFail (.call none) ⟨false, false⟩ errW 100000 "" 0).2.2.1
      (by rfl) (by rfl) (by rfl)).1
  · exact ((claim_C4 envC4 (.call none) ⟨false, true⟩ errW 100000 "0xhash" 1).2.2.2
      (by rfl) (by rfl) (by rfl) (by decide)).1
